/-
Verification of the CORD-19 dashboard pipeline (streamlit_app.py).

The file shallowly embeds the data model and the pure parts of the
dashboard's filter / aggregate / sort pipeline as Lean definitions and
proves the specification's testable properties about them.

Modelling conventions:
* a pandas DataFrame of paper records is a `List Paper` (row order is the
  list order);
* boolean-mask filtering (`df[mask]`) is `List.filter` (which preserves
  row order, as pandas does);
* `Series.str.contains(term, case=False, na=False)` keeps pandas'
  default regex=True: the search term is a regular expression, modelled
  on the fragment of ordinary characters plus the any-character dot; a
  term outside that fragment is compiled by Python as regex operators
  (some, such as an unbalanced bracket, raise re.error) and is an
  unmodelled `none` here. The literal substring reading is a separate
  definition, proved to agree with the regex semantics exactly on
  metacharacter-free terms;
* `Series.value_counts()` is `valueCounts`: distinct keys in first-seen
  order, each with its count, stably sorted descending by count
  (matching the stable sort inside pandas value_counts);
* `sort_values` at line 431 is embedded as a sort by the column key with
  ties kept in input order; the code's default kind is quicksort, whose
  tie order numpy leaves unspecified, so no tie-order property is
  claimed of that sort (the membership results proved below do not
  depend on the tie order);
* pandas missing floats (`NaN`, produced e.g. by `mean()` of an empty
  column) are `Option ℚ` with `none` for the missing value; Python's
  `f-string` rendering of such a NaN produces the text "nan", which the
  formatting functions below reproduce;
* `np.random` draws are abstracted by an `RNG` record of integer streams:
  every claim about the generated data is proved for all streams, and the
  fixed seed 42 is one concrete stream.
-/
import Mathlib

namespace Cord19

/-- Calendar date, as stored in the `publish_time` column. -/
structure Date where
  year : Int
  month : Int
  day : Int
deriving DecidableEq, Repr

/-- Lexicographic (chronological) order on dates. -/
def Date.le (a b : Date) : Prop :=
  a.year < b.year ∨ (a.year = b.year ∧
    (a.month < b.month ∨ (a.month = b.month ∧ a.day ≤ b.day)))

instance : DecidablePred fun p : Date × Date => Date.le p.1 p.2 := by
  intro p; unfold Date.le; infer_instance

instance (a b : Date) : Decidable (Date.le a b) := by
  unfold Date.le; infer_instance

/-- One row of the paper-metadata table, with the column names of the
source (`source_x` is the source column, `publish_year` the derived year
column added by the loader). -/
structure Paper where
  title : String
  abstract : String
  publish_time : Date
  journal : String
  source_x : String
  authors : String
  abstract_word_count : Int
  publish_year : Int
deriving DecidableEq, Repr

/-- The user's filter selection: year-range slider, source multiselect and
title search box. -/
structure Selection where
  year_min : Int
  year_max : Int
  selected_sources : List String
  search_term : String
deriving DecidableEq, Repr

/-- ASCII lowercasing of a string, the relevant fragment of Python's
`str.lower` / `case=False` matching for the titles in this dataset. -/
def lowerStr (s : String) : List Char :=
  s.data.map Char.toLower

/-- The literal case-insensitive substring test: what
`Series.str.contains(term, case=False, na=False)` computes when the term
holds no regex metacharacter (`searchFilterRegex_of_literal` below); see
`searchFilterRegex` for the regex semantics of the call. -/
def containsCI (title term : String) : Bool :=
  decide (List.IsInfix (lowerStr term) (lowerStr title))

/-- The year-range and source mask of lines 261-265:
`(publish_year >= year_range[0]) & (publish_year <= year_range[1]) &
 (source_x.isin(selected_sources))`. -/
def matchesYearSource (S : Selection) (r : Paper) : Bool :=
  decide (S.year_min ≤ r.publish_year) &&
  decide (r.publish_year ≤ S.year_max) &&
  decide (r.source_x ∈ S.selected_sources)

/-- The `filtered_df` of lines 261-265. -/
def filteredDf (T : List Paper) (S : Selection) : List Paper :=
  T.filter (matchesYearSource S)

/-- The search stage of lines 414-417 under the literal-substring
reading of `str.contains`: `if search_term:` applies the title mask, an
empty search term leaves the table unchanged. Faithful to the code
exactly for metacharacter-free search terms. -/
def searchFilter (T : List Paper) (term : String) : List Paper :=
  if term = "" then T else T.filter (fun r => containsCI r.title term)

/-- The fully filtered `display_df` under the literal-substring reading;
agrees with the regex-faithful `displayDfRegex` on metacharacter-free
search terms. -/
def displayDf (T : List Paper) (S : Selection) : List Paper :=
  searchFilter (filteredDf T S) S.search_term

/-- The specification's single conjunctive filter predicate (spec 4.3):
year in range AND source selected AND (search empty OR case-insensitive
substring of the title). -/
def conjPred (S : Selection) (r : Paper) : Bool :=
  decide (S.year_min ≤ r.publish_year) &&
  decide (r.publish_year ≤ S.year_max) &&
  decide (r.source_x ∈ S.selected_sources) &&
  (decide (S.search_term = "") || containsCI r.title S.search_term)

/-- The characters Python re treats as metacharacters: a search term
containing none of them is matched by the default regex=True of
`str.contains` as a literal string. -/
def regexMetachars : List Char :=
  ['.', '^', '$', '*', '+', '?', '{', '}', '[', ']', '\\', '|', '(', ')']

/-- True when the search term consists solely of ordinary characters, so
`str.contains` with its default regex=True still matches it literally. -/
def regexLiteral (term : String) : Bool :=
  term.data.all (fun c => decide (c ∉ regexMetachars))

/-- True when the search term lies in the modelled fragment of Python
regular expressions: ordinary characters plus the any-character dot.
Terms outside the fragment are compiled by Python as regex operators:
some raise re.error at line 416 (an unbalanced bracket such as "(", a
leading repeat such as "*"), the others change the matching semantics;
the embedding reports them as the unmodelled `none`. -/
def regexFragment (term : String) : Bool :=
  term.data.all (fun c => decide (c ∉ regexMetachars) || decide (c = '.'))

/-- Pointwise match of a fragment pattern against the front of a text
window: the dot matches any character, an ordinary pattern character
matches its text character up to case (re.IGNORECASE). -/
def windowMatch : List Char → List Char → Bool
  | [], _ => true
  | _ :: _, [] => false
  | p :: ps, c :: cs =>
      (decide (p = '.') || decide (Char.toLower p = Char.toLower c)) && windowMatch ps cs

/-- The re.search of a fragment pattern: the pattern matches at some
starting position of the text. -/
def reSearch (pat : List Char) : List Char → Bool
  | [] => windowMatch pat []
  | c :: cs => windowMatch pat (c :: cs) || reSearch pat cs

/-- The search stage of lines 414-417 under the regex semantics of
`str.contains(search_term, case=False, na=False)` (pandas default
regex=True): an empty term skips the mask; a term of the modelled
fragment is compiled and searched in every title; a term outside the
fragment is the unmodelled `none` - on such terms Python either raises
re.error (e.g. for "(") or matches with operator semantics. -/
def searchFilterRegex (T : List Paper) (term : String) : Option (List Paper) :=
  if term = "" then some T
  else if regexFragment term then
    some (T.filter (fun r => reSearch term.data r.title.data))
  else none

/-- The fully filtered `display_df` under the regex semantics: the
year/source mask of lines 261-265, then the regex search mask of lines
414-417. -/
def displayDfRegex (T : List Paper) (S : Selection) : Option (List Paper) :=
  searchFilterRegex (filteredDf T S) S.search_term

/-- Distinct elements of a list in order of first occurrence: the key
order produced by the pandas factorization that underlies
`Series.value_counts()`. -/
def firstSeen {α : Type} [DecidableEq α] : List α → List α
  | [] => []
  | x :: rest => x :: firstSeen (rest.filter (fun y => y ≠ x))
termination_by l => l.length
decreasing_by
  simp_wf
  exact Nat.lt_succ_of_le (List.length_filter_le _ _)

/-- Each distinct value, in first-seen order, with its number of
occurrences. -/
def firstSeenCounts {α : Type} [DecidableEq α] (l : List α) : List (α × Nat) :=
  (firstSeen l).map (fun x => (x, l.count x))

/-- Descending-by-count comparison used to sort a `value_counts` result. -/
def countDescLe {α : Type} (a b : α × Nat) : Bool :=
  decide (b.2 ≤ a.2)

/-- Embeds pandas `Series.value_counts()`: one (value, count) entry per
distinct value, sorted descending by count; ties keep first-seen order
(the sort is stable). -/
def valueCounts {α : Type} [DecidableEq α] (l : List α) : List (α × Nat) :=
  (firstSeenCounts l).mergeSort countDescLe

/-- Embeds line 133, `df['publish_year'].value_counts().sort_index()`:
one (year, count) entry per distinct publication year, ascending by
year. -/
def yearlyCounts (T : List Paper) : List (Int × Nat) :=
  ((T.map Paper.publish_year).dedup.mergeSort (fun a b => decide (a ≤ b))).map
    (fun y => (y, (T.map Paper.publish_year).count y))

/-- Embeds `df['journal'].value_counts()` (lines 136, 178, 342, 481). -/
def journalValueCounts (T : List Paper) : List (String × Nat) :=
  valueCounts (T.map Paper.journal)

/-- Embeds line 139, `df['source_x'].value_counts()`. -/
def sourceCounts (T : List Paper) : List (String × Nat) :=
  valueCounts (T.map Paper.source_x)

/-- Embeds `df['journal'].value_counts().head(n)` (lines 136 and 178):
the top-n journals by count. -/
def topJournals (T : List Paper) (n : Nat) : List (String × Nat) :=
  (journalValueCounts T).take n

/-- Embeds `df['abstract_word_count'].mean()` (lines 142, 285, 479):
pandas returns NaN (here `none`) on an empty column. -/
def meanWC (T : List Paper) : Option ℚ :=
  if T.length = 0 then none
  else some (((T.map Paper.abstract_word_count).sum : ℚ) / (T.length : ℚ))

/-- Embeds line 143, `df['abstract_word_count'].median()`: midpoint of the
sorted values, averaging the two middle values for even counts; NaN
(here `none`) on an empty column. -/
def medianWC (T : List Paper) : Option ℚ :=
  let s := (T.map Paper.abstract_word_count).mergeSort (fun a b => decide (a ≤ b))
  if s.length = 0 then none
  else if s.length % 2 = 1 then some ((s.getD (s.length / 2) 0 : Int) : ℚ)
  else some (((s.getD (s.length / 2 - 1) 0 : Int) + (s.getD (s.length / 2) 0 : Int) : ℚ) / 2)

/-- Step function of pandas `Series.idxmax` over a (key, count) series:
keep the entry with the strictly larger count, the earlier one on ties. -/
def idxmaxStep (acc : Option (Int × Nat)) (p : Int × Nat) : Option (Int × Nat) :=
  match acc with
  | none => some p
  | some q => if q.2 < p.2 then some p else some q

/-- Embeds `Series.idxmax` on a (year, count) series: the first key
attaining the maximal count, `none` on the empty series. -/
def idxmax (l : List (Int × Nat)) : Option Int :=
  (l.foldl idxmaxStep none).map Prod.fst

/-- One-decimal rendering, the defined-value case of Python's
f-string `{x:.1f}`. -/
def fmt1 (q : ℚ) : String :=
  toString ((round (q * 10) : Int) / 10) ++ "." ++ toString (((round (q * 10) : Int) % 10).natAbs)

/-- The Avg Abstract Length summary entry of line 479,
`f"{filtered_df['abstract_word_count'].mean():.1f} words"`: Python
renders the NaN mean of an empty column as the text "nan". -/
def summaryAvgEntry (T : List Paper) : String :=
  (match meanWC T with
   | none => "nan"
   | some q => fmt1 q) ++ " words"

/-- The Most Productive Year summary entry of line 480:
`yearly_counts.idxmax() if len(yearly_counts) > 0 else 'N/A'`. -/
def mostProductiveEntry (T : List Paper) : String :=
  match idxmax (yearlyCounts T) with
  | none => "N/A"
  | some y => toString y

/-- The Top Journal summary entry of line 481:
`value_counts().index[0] if len(filtered_df) > 0 else 'N/A'`. -/
def topJournalEntry (T : List Paper) : String :=
  if 0 < T.length then ((journalValueCounts T).headD ("", 0)).1 else "N/A"

/-- The fixed catalog of 20 sample titles (lines 56-77). -/
def sampleTitles : List String :=
  ["COVID-19 transmission dynamics in healthcare settings",
   "SARS-CoV-2 vaccine efficacy and safety analysis",
   "Respiratory complications in coronavirus patients",
   "Economic impact of pandemic control measures",
   "Mental health effects of social distancing policies",
   "Clinical characteristics of COVID-19 in elderly patients",
   "Diagnostic accuracy of rapid antigen tests",
   "Long COVID symptoms and patient outcomes",
   "Healthcare worker infection rates during pandemic",
   "Effectiveness of mask mandates in reducing transmission",
   "COVID-19 variants and immune escape mechanisms",
   "Pediatric COVID-19 clinical presentation",
   "Vaccine hesitancy and public health messaging",
   "Remote work productivity during lockdowns",
   "Supply chain disruptions in pharmaceutical industry",
   "COVID-19 impact on cancer screening programs",
   "Telemedicine adoption during pandemic",
   "School closure effects on student learning",
   "Food security challenges during COVID-19",
   "Environmental changes during lockdown periods"]

/-- The fixed catalog of 15 sample journals (lines 79-84). -/
def sampleJournals : List String :=
  ["Nature Medicine", "The Lancet", "New England Journal of Medicine",
   "Science", "Cell", "BMJ", "JAMA", "PNAS", "Nature", "PLoS ONE",
   "Journal of Virology", "Clinical Infectious Diseases",
   "Epidemiology", "Public Health Reports", "Vaccine"]

/-- The five source categories (line 86). -/
def sampleSources : List String :=
  ["PubMed", "PMC", "bioRxiv", "medRxiv", "arXiv"]

/-- Abstract view of the numpy random stream the loader consumes: one
draw of each kind per record index. Seeding numpy with the fixed seed 42
(line 54) fixes one such stream; every property proved below holds for
all streams, hence for the seeded one. -/
structure RNG where
  coin : Nat → Bool
  choiceYear : Nat → Nat
  otherYear : Nat → Nat
  monthDraw : Nat → Nat
  dayDraw : Nat → Nat
  normalDraw : Nat → Int
  titlePick : Nat → Nat
  journalPick : Nat → Nat
  sourcePick : Nat → Nat

/-- Uniform choice from a fixed catalog (`np.random.choice(list)`). -/
def pick (l : List String) (k : Nat) : String :=
  l.getD (k % l.length) ""

/-- One record of the synthetic table (lines 92-117) together with the
two post-processing column assignments of lines 120-121: `publish_time`
becomes a date and `publish_year` is derived from that date. The year is
drawn from {2020, 2021, 2022} on the 70% branch and uniformly from
[2015, 2024) on the other branch; the month is `randint(1, 13)`, the day
`randint(1, 29)`; the word count is the integer-truncated normal draw
clamped by `max(50, min(300, .))`. -/
def sampleRecord (g : RNG) (i : Nat) : Paper :=
  let year : Int :=
    if g.coin i then 2020 + (g.choiceYear i % 3 : Nat) else 2015 + (g.otherYear i % 9 : Nat)
  let m : Int := 1 + (g.monthDraw i % 12 : Nat)
  let d : Int := 1 + (g.dayDraw i % 28 : Nat)
  let wc : Int := max 50 (min 300 (g.normalDraw i))
  let pubDate : Date := ⟨year, m, d⟩
  { title := pick sampleTitles (g.titlePick i)
    abstract := "Abstract with " ++ toString wc ++ " words about COVID-19 research..."
    publish_time := pubDate
    journal := pick sampleJournals (g.journalPick i)
    source_x := pick sampleSources (g.sourcePick i)
    authors := "Author" ++ toString (i % 100) ++ " et al."
    abstract_word_count := wc
    publish_year := pubDate.year }

/-- Embeds `load_sample_data` (lines 47-123): `n_papers = 5000` records
generated from the random stream. -/
def loadSampleDataWith (g : RNG) : List Paper :=
  (List.range 5000).map (sampleRecord g)

/-- A concrete stream standing for the state of numpy after
`np.random.seed(42)`: the loader is a pure function of it, so repeated
calls return the identical table. -/
def seededRNG : RNG :=
  { coin := fun i => i % 10 < 7
    choiceYear := fun i => i
    otherYear := fun i => i
    monthDraw := fun i => i
    dayDraw := fun i => i
    normalDraw := fun i => 100 + (i % 100 : Nat)
    titlePick := fun i => i
    journalPick := fun i => i
    sourcePick := fun i => i }

/-- The cached `load_sample_data()` of line 227. -/
def loadSampleData : List Paper :=
  loadSampleDataWith seededRNG

/-- Embeds line 525, `len(filtered_df)/len(df)*100`: Python division
raises ZeroDivisionError on a zero denominator, modelled by `none`. -/
def filterEfficiencyPct (base filtered : List Paper) : Option ℚ :=
  if base.length = 0 then none
  else some ((filtered.length : ℚ) / (base.length : ℚ) * 100)

/-- Concrete record used to instantiate theorems with hypotheses. -/
def samplePaper : Paper :=
  { title := "SARS-CoV-2 vaccine efficacy and safety analysis"
    abstract := "Abstract with 150 words about COVID-19 research..."
    publish_time := ⟨2020, 1, 5⟩
    journal := "Nature Medicine"
    source_x := "PubMed"
    authors := "Author0 et al."
    abstract_word_count := 150
    publish_year := 2020 }

/-- Second concrete record (year 2021, source PMC). -/
def samplePaper2 : Paper :=
  { title := "Respiratory complications in coronavirus patients"
    abstract := "Abstract with 200 words about COVID-19 research..."
    publish_time := ⟨2021, 3, 12⟩
    journal := "The Lancet"
    source_x := "PMC"
    authors := "Author1 et al."
    abstract_word_count := 200
    publish_year := 2021 }

/-- The three sortable columns offered by the selectbox at line 425. -/
inductive SortCol : Type
  | publish_time
  | journal
  | abstract_word_count
deriving DecidableEq, Repr

/-- Comparison of two rows on the chosen column, flipped when the order
selectbox says Descending (lines 427-431). -/
def colLe (col : SortCol) (asc : Bool) (r s : Paper) : Bool :=
  match col with
  | .publish_time =>
      if asc then decide (Date.le r.publish_time s.publish_time)
      else decide (Date.le s.publish_time r.publish_time)
  | .journal =>
      if asc then decide (r.journal ≤ s.journal)
      else decide (s.journal ≤ r.journal)
  | .abstract_word_count =>
      if asc then decide (r.abstract_word_count ≤ s.abstract_word_count)
      else decide (s.abstract_word_count ≤ r.abstract_word_count)

/-- Embeds line 431, `display_df.sort_values(sort_column, ascending=ascending)`,
as a sort by the column key with ties kept in input order. The call's
default kind is quicksort, whose tie order numpy leaves unspecified, so
the embedding's tie order is one admissible outcome, fixed here only to
make the definition total; no tie-order property is claimed of it, and
the membership results proved below hold for every tie order. -/
def sortValues (T : List Paper) (col : SortCol) (asc : Bool) : List Paper :=
  T.mergeSort (colLe col asc)

/-- Embeds lines 431-435: sort the table, then `.head(rows_to_show)`
truncates to the first `limit` rows after sorting. -/
def displayRows (T : List Paper) (col : SortCol) (asc : Bool) (limit : Nat) :
    List Paper :=
  (sortValues T col asc).take limit

theorem displayDf_eq_filter_conj (T : List Paper) (S : Selection) :
    displayDf T S = T.filter (conjPred S) := by
  unfold displayDf searchFilter filteredDf
  by_cases h : S.search_term = ""
  · simp only [if_pos h]
    apply List.filter_congr
    intro r _
    simp [conjPred, matchesYearSource, h]
  · simp only [if_neg h, List.filter_filter]
    apply List.filter_congr
    intro r _
    simp [conjPred, matchesYearSource, h, Bool.and_comm]

theorem windowMatch_prefix_iff (pat : List Char)
    (hnd : pat.all (fun c => decide (c ≠ '.')) = true) (s : List Char) :
    windowMatch pat s = true ↔
      List.IsPrefix (pat.map Char.toLower) (s.map Char.toLower) := by
  induction pat generalizing s with
  | nil => simp [windowMatch, List.nil_prefix]
  | cons p ps ih =>
    rw [List.all_cons, Bool.and_eq_true] at hnd
    obtain ⟨hp, hps⟩ := hnd
    rw [decide_eq_true_eq] at hp
    cases s with
    | nil => simp [windowMatch, List.prefix_nil]
    | cons c cs =>
      simp only [windowMatch, Bool.and_eq_true, Bool.or_eq_true, decide_eq_true_eq,
        List.map_cons, List.cons_prefix_cons]
      rw [ih hps cs]
      constructor
      · rintro ⟨h1 | h1, h2⟩
        · exact absurd h1 hp
        · exact ⟨h1, h2⟩
      · rintro ⟨h1, h2⟩
        exact ⟨Or.inr h1, h2⟩

theorem reSearch_infix_iff (pat : List Char)
    (hnd : pat.all (fun c => decide (c ≠ '.')) = true) (s : List Char) :
    reSearch pat s = true ↔
      List.IsInfix (pat.map Char.toLower) (s.map Char.toLower) := by
  induction s with
  | nil =>
    simp only [reSearch]
    rw [windowMatch_prefix_iff pat hnd]
    simp [List.prefix_nil, List.infix_nil]
  | cons c cs ih =>
    simp only [reSearch, Bool.or_eq_true]
    rw [windowMatch_prefix_iff pat hnd, ih, List.map_cons, List.infix_cons_iff]

theorem searchFilterRegex_of_literal (T : List Paper) (term : String)
    (hlit : regexLiteral term = true) :
    searchFilterRegex T term = some (searchFilter T term) := by
  unfold regexLiteral at hlit
  rw [List.all_eq_true] at hlit
  unfold searchFilterRegex searchFilter
  by_cases h0 : term = ""
  · simp [h0]
  · have hfrag : regexFragment term = true := by
      unfold regexFragment
      rw [List.all_eq_true]
      intro c hc
      rw [Bool.or_eq_true]
      exact Or.inl (hlit c hc)
    have hnd : term.data.all (fun c => decide (c ≠ '.')) = true := by
      rw [List.all_eq_true]
      intro c hc
      rw [decide_eq_true_eq]
      intro hdot
      have hmem := hlit c hc
      rw [decide_eq_true_eq] at hmem
      subst hdot
      exact hmem (by decide)
    rw [if_neg h0, if_neg h0, if_pos hfrag]
    apply congrArg some
    apply List.filter_congr
    intro r _
    rw [Bool.eq_iff_iff, reSearch_infix_iff term.data hnd r.title.data]
    unfold containsCI lowerStr
    simp

theorem mem_firstSeen {α : Type} [DecidableEq α] (l : List α) (a : α) :
    a ∈ firstSeen l ↔ a ∈ l := by
  induction l using firstSeen.induct with
  | case1 => simp [firstSeen]
  | case2 x rest ih =>
    rw [firstSeen]
    by_cases hax : a = x
    · simp [hax]
    · simp only [List.mem_cons, ih, List.mem_filter]
      constructor
      · rintro (h | ⟨h, _⟩)
        · exact Or.inl h
        · exact Or.inr h
      · rintro (h | h)
        · exact Or.inl h
        · right; exact ⟨h, by simp [hax]⟩

theorem nodup_firstSeen {α : Type} [DecidableEq α] (l : List α) :
    (firstSeen l).Nodup := by
  induction l using firstSeen.induct with
  | case1 => simp [firstSeen]
  | case2 x rest ih =>
    rw [firstSeen]
    refine List.nodup_cons.mpr ⟨?_, ih⟩
    intro hmem
    rw [mem_firstSeen] at hmem
    simp [List.mem_filter] at hmem

theorem yearlyCounts_nil : yearlyCounts [] = [] := by
  simp [yearlyCounts]

theorem journalValueCounts_nil : journalValueCounts [] = [] := by
  simp [journalValueCounts, valueCounts, firstSeenCounts, firstSeen]

theorem sourceCounts_nil : sourceCounts [] = [] := by
  simp [sourceCounts, valueCounts, firstSeenCounts, firstSeen]

theorem meanWC_nil : meanWC [] = none := rfl

theorem medianWC_nil : medianWC [] = none := by
  simp [medianWC]

theorem mostProductiveEntry_nil : mostProductiveEntry [] = "N/A" := by
  simp [mostProductiveEntry, idxmax, yearlyCounts_nil]

theorem topJournalEntry_nil : topJournalEntry [] = "N/A" := rfl

theorem summaryAvgEntry_nil : summaryAvgEntry [] = "nan words" := rfl

/-- C1 counterexample: at the search term "." the claim fails. Pandas
compiles the term as a regular expression (default regex=True), so line
416 keeps a record whose title holds no literal dot - the any-character
pattern matches everywhere - while the claim's conjunction (dot as a
case-insensitive substring of the title) excludes that record: the
filter does not return exactly the records satisfying the conjunction. -/
theorem C1_regex_dot_counterexample :
    displayDfRegex [samplePaper] (Selection.mk 2015 2024 ["PubMed"] ".") =
      some [samplePaper] ∧
    [samplePaper].filter (conjPred (Selection.mk 2015 2024 ["PubMed"] ".")) = [] := by
  constructor
  · rfl
  · rfl

/-- C1 amended: for every table and every selection whose search term is
free of regex metacharacters (so pandas' default regex=True still
matches it literally), the two-stage filter (lines 261-265 then 414-417)
returns exactly the records satisfying the conjunction "publish_year in
[year_min, year_max] AND source_x in selected_sources AND (search_term
empty OR a case-insensitive substring of title)", and the retained
records keep the input order (the result is a sublist of the input); on
such terms the regex semantics and the substring semantics agree. -/
theorem C1_filter_conjunction_literal_term (T : List Paper) (S : Selection)
    (hlit : regexLiteral S.search_term = true) :
    displayDfRegex T S = some (T.filter (conjPred S)) ∧
    displayDf T S = T.filter (conjPred S) ∧
    List.Sublist (T.filter (conjPred S)) T ∧
    ∀ r : Paper, r ∈ T.filter (conjPred S) ↔ r ∈ T ∧ conjPred S r = true := by
  refine ⟨?_, displayDf_eq_filter_conj T S, List.filter_sublist T, ?_⟩
  · unfold displayDfRegex
    rw [searchFilterRegex_of_literal _ _ hlit]
    apply congrArg some
    exact displayDf_eq_filter_conj T S
  · intro r
    simp [List.mem_filter]

/-- C1 amended, instantiated at a concrete metacharacter-free search. -/
theorem C1_literal_term_witness :
    displayDfRegex [samplePaper] (Selection.mk 2015 2024 ["PubMed"] "vaccine") =
      some ([samplePaper].filter
        (conjPred (Selection.mk 2015 2024 ["PubMed"] "vaccine"))) :=
  (C1_filter_conjunction_literal_term [samplePaper]
    (Selection.mk 2015 2024 ["PubMed"] "vaccine") (by decide)).1

/-- C2, the code evaluated at the failing input (an empty filtered
table): the summary's Most Productive Year and Top Journal entries are
"N/A" and every embedded statistic is total (no exception), but the mean
and median are the pandas missing value NaN (modelled as `none`), and
line 479 renders the mean into the NaN-formatted string "nan words"
rather than reporting null as the claim states. -/
theorem C2_empty_table_nan_words :
    summaryAvgEntry [] = "nan words" ∧ meanWC [] = none ∧ medianWC [] = none ∧
    mostProductiveEntry [] = "N/A" ∧ topJournalEntry [] = "N/A" :=
  ⟨summaryAvgEntry_nil, meanWC_nil, medianWC_nil, mostProductiveEntry_nil,
    topJournalEntry_nil⟩

/-- C7: on any non-empty table, an empty source multiselect filters out
every record (lines 261-265: `isin([])` holds of no row), and every
downstream aggregate of the empty filtered table reports zero, the empty
series, NaN/null, or "N/A"; every embedded function is total, so no
error is raised. -/
theorem C7_empty_sources_empty_result (T : List Paper) (ymin ymax : Int)
    (q : String) (_hT : T ≠ []) :
    filteredDf T (Selection.mk ymin ymax [] q) = [] ∧
    (filteredDf T (Selection.mk ymin ymax [] q)).length = 0 ∧
    yearlyCounts (filteredDf T (Selection.mk ymin ymax [] q)) = [] ∧
    journalValueCounts (filteredDf T (Selection.mk ymin ymax [] q)) = [] ∧
    sourceCounts (filteredDf T (Selection.mk ymin ymax [] q)) = [] ∧
    meanWC (filteredDf T (Selection.mk ymin ymax [] q)) = none ∧
    medianWC (filteredDf T (Selection.mk ymin ymax [] q)) = none ∧
    mostProductiveEntry (filteredDf T (Selection.mk ymin ymax [] q)) = "N/A" ∧
    topJournalEntry (filteredDf T (Selection.mk ymin ymax [] q)) = "N/A" := by
  have h : filteredDf T (Selection.mk ymin ymax [] q) = [] := by
    have hp : matchesYearSource (Selection.mk ymin ymax [] q) = fun _ => false := by
      funext r
      simp [matchesYearSource]
    simp [filteredDf, hp]
  rw [h]
  exact ⟨rfl, rfl, yearlyCounts_nil, journalValueCounts_nil, sourceCounts_nil,
    meanWC_nil, medianWC_nil, mostProductiveEntry_nil, topJournalEntry_nil⟩

/-- C7 instantiated at a concrete one-record table. -/
theorem C7_empty_sources_witness :
    (filteredDf [samplePaper] (Selection.mk 2015 2024 [] "")).length = 0 :=
  (C7_empty_sources_empty_result [samplePaper] 2015 2024 ""
    (List.cons_ne_nil _ _)).2.1

theorem sum_dedup_count {α : Type} [DecidableEq α] (l : List α) :
    (l.dedup.map fun x => l.count x).sum = l.length := by
  have h := Multiset.toFinset_sum_count_eq (l : Multiset α)
  rw [Finset.sum] at h
  simpa [List.toFinset, Multiset.toFinset] using h

theorem intLe_trans (a b c : Int) (h₁ : decide (a ≤ b) = true)
    (h₂ : decide (b ≤ c) = true) : decide (a ≤ c) = true := by
  simp only [decide_eq_true_eq] at *
  omega

theorem intLe_total (a b : Int) :
    (decide (a ≤ b) || decide (b ≤ a)) = true := by
  simp only [Bool.or_eq_true, decide_eq_true_eq]
  omega

/-- C4: for every non-empty table, yearly_counts (line 133) has exactly
one entry per distinct publication year present in the table (its key
list is duplicate-free and a year is a key iff some record has it), the
entries are sorted ascending by year, each count is the number of records
with that year, and the counts sum to the number of records. -/
theorem C4_yearly_counts_partition (T : List Paper) (_hT : T ≠ []) :
    ((yearlyCounts T).map Prod.fst).Nodup ∧
    (∀ y : Int, (y ∈ (yearlyCounts T).map Prod.fst) ↔ ∃ r ∈ T, r.publish_year = y) ∧
    (yearlyCounts T).Pairwise (fun a b => a.1 ≤ b.1) ∧
    (∀ p ∈ yearlyCounts T, p.2 = (T.filter (fun r => r.publish_year = p.1)).length) ∧
    ((yearlyCounts T).map Prod.snd).sum = T.length := by
  have hperm : ((T.map Paper.publish_year).dedup.mergeSort
      (fun a b => decide (a ≤ b))).Perm (T.map Paper.publish_year).dedup :=
    List.mergeSort_perm _ _
  have hkeys : (yearlyCounts T).map Prod.fst =
      (T.map Paper.publish_year).dedup.mergeSort (fun a b => decide (a ≤ b)) := by
    unfold yearlyCounts
    rw [List.map_map]
    exact List.map_id _
  refine ⟨?_, ?_, ?_, ?_, ?_⟩
  · rw [hkeys]
    exact hperm.symm.nodup (List.nodup_dedup _)
  · intro y
    rw [hkeys, hperm.mem_iff, List.mem_dedup, List.mem_map]
  · have hs := @List.sorted_mergeSort Int (fun a b => decide (a ≤ b))
      intLe_trans intLe_total (T.map Paper.publish_year).dedup
    unfold yearlyCounts
    rw [List.pairwise_map]
    refine hs.imp ?_
    intro a b h
    simpa using h
  · intro p hp
    unfold yearlyCounts at hp
    obtain ⟨y, _, rfl⟩ := List.mem_map.mp hp
    show (T.map Paper.publish_year).count y = _
    rw [List.count, List.countP_map, List.countP_eq_length_filter]
    apply congrArg List.length
    apply List.filter_congr
    intro r _
    rw [Bool.eq_iff_iff]
    simp [Function.comp, beq_iff_eq]
  · have hmap : (yearlyCounts T).map Prod.snd =
        ((T.map Paper.publish_year).dedup.mergeSort (fun a b => decide (a ≤ b))).map
          (fun y => (T.map Paper.publish_year).count y) := by
      simp [yearlyCounts, List.map_map, Function.comp]
    rw [hmap, (hperm.map _).sum_eq, sum_dedup_count]
    simp

/-- C4 instantiated at a concrete two-record table. -/
theorem C4_yearly_counts_witness :
    ((yearlyCounts [samplePaper, samplePaper2]).map Prod.snd).sum = 2 :=
  (C4_yearly_counts_partition [samplePaper, samplePaper2]
    (List.cons_ne_nil _ _)).2.2.2.2

theorem countDescLe_trans {α : Type} (a b c : α × Nat)
    (h₁ : countDescLe a b = true) (h₂ : countDescLe b c = true) :
    countDescLe a c = true := by
  simp only [countDescLe, decide_eq_true_eq] at *
  omega

theorem countDescLe_total {α : Type} (a b : α × Nat) :
    (countDescLe a b || countDescLe b a) = true := by
  simp only [countDescLe, Bool.or_eq_true, decide_eq_true_eq]
  omega

theorem valueCounts_perm {α : Type} [DecidableEq α] (l : List α) :
    (valueCounts l).Perm (firstSeenCounts l) :=
  List.mergeSort_perm _ _

theorem valueCounts_sorted {α : Type} [DecidableEq α] (l : List α) :
    (valueCounts l).Pairwise (fun a b => b.2 ≤ a.2) := by
  have h := @List.sorted_mergeSort (α × Nat) countDescLe
    countDescLe_trans countDescLe_total (firstSeenCounts l)
  exact h.imp (by intro a b hab; simpa [countDescLe] using hab)

/-- Stability of the `value_counts` sort: within one count value, the
sorted list keeps exactly the first-seen-ordered entries. -/
theorem valueCounts_stable {α : Type} [DecidableEq α] (l : List α) (c : Nat) :
    (valueCounts l).filter (fun p => p.2 = c) =
    (firstSeenCounts l).filter (fun p => p.2 = c) := by
  have hpw : ((firstSeenCounts l).filter (fun p => p.2 = c)).Pairwise
      (fun a b => countDescLe a b = true) := by
    apply List.pairwise_of_forall_mem_list
    intro a ha b hb
    have ha2 := (List.mem_filter.mp ha).2
    have hb2 := (List.mem_filter.mp hb).2
    simp only [decide_eq_true_eq] at ha2 hb2
    simp [countDescLe, ha2, hb2]
  have hsub : ((firstSeenCounts l).filter (fun p => p.2 = c)).Sublist (valueCounts l) :=
    List.sublist_mergeSort countDescLe_trans countDescLe_total hpw
      (List.filter_sublist _)
  have hsub2 : ((firstSeenCounts l).filter (fun p => p.2 = c)).Sublist
      ((valueCounts l).filter (fun p => p.2 = c)) := by
    have := hsub.filter (fun p => p.2 = c)
    rwa [List.filter_filter, List.filter_congr] at this
    intro p _
    simp [Bool.and_self]
  have hp : ((valueCounts l).filter (fun p => p.2 = c)).Perm
      ((firstSeenCounts l).filter (fun p => p.2 = c)) :=
    (valueCounts_perm l).filter _
  exact (hsub2.eq_of_length hp.length_eq.symm).symm

theorem firstSeenCounts_keys {α : Type} [DecidableEq α] (l : List α) :
    (firstSeenCounts l).map Prod.fst = firstSeen l := by
  unfold firstSeenCounts
  rw [List.map_map]
  exact List.map_id _

theorem firstSeenCounts_count {α : Type} [DecidableEq α] (l : List α)
    (p : α × Nat) (hp : p ∈ firstSeenCounts l) : p.2 = l.count p.1 := by
  obtain ⟨x, _, rfl⟩ := List.mem_map.mp hp
  rfl

/-- C5: the top-journals aggregate (`value_counts().head(n)`, lines 136
and 178) is ordered descending by record count; its count values are the
record counts per journal; within one count value the retained entries
are exactly the journals in first-seen order; taking n = 0 yields the
empty sequence; and when n is at least the number of unique journals the
whole descending-sorted journal series is returned (a permutation of the
per-journal count series, so every journal appears). -/
theorem C5_top_journals (T : List Paper) (n : Nat) :
    topJournals T 0 = [] ∧
    (topJournals T n).Pairwise (fun a b => b.2 ≤ a.2) ∧
    ((journalValueCounts T).length ≤ n → topJournals T n = journalValueCounts T) ∧
    (journalValueCounts T).Perm (firstSeenCounts (T.map Paper.journal)) ∧
    (∀ c : Nat, (journalValueCounts T).filter (fun p => p.2 = c) =
      (firstSeenCounts (T.map Paper.journal)).filter (fun p => p.2 = c)) ∧
    (∀ p ∈ journalValueCounts T,
      p.2 = (T.filter (fun r => r.journal = p.1)).length) ∧
    (∀ j : String, j ∈ (journalValueCounts T).map Prod.fst ↔ ∃ r ∈ T, r.journal = j) := by
  refine ⟨rfl, ?_, ?_, valueCounts_perm _, valueCounts_stable _, ?_, ?_⟩
  · exact (valueCounts_sorted (T.map Paper.journal)).sublist (List.take_sublist _ _)
  · intro hn
    exact List.take_of_length_le hn
  · intro p hp
    have hp2 := firstSeenCounts_count _ p ((valueCounts_perm _).mem_iff.mp hp)
    rw [hp2, List.count, List.countP_map, List.countP_eq_length_filter]
    apply congrArg List.length
    apply List.filter_congr
    intro r _
    rw [Bool.eq_iff_iff]
    simp [Function.comp, beq_iff_eq]
  · intro j
    have hkeys : ((journalValueCounts T).map Prod.fst).Perm
        (firstSeen (T.map Paper.journal)) := by
      rw [← firstSeenCounts_keys (T.map Paper.journal)]
      exact (valueCounts_perm _).map _
    rw [hkeys.mem_iff, mem_firstSeen, List.mem_map]

/-- C9: for every random stream (in particular the seed-42 one) the
sample loader returns exactly 5000 records; each record's day-of-month
lies in [1, 28] (and its month in [1, 12]), its publication year lies in
[2015, 2023] and equals the year of its date, and its abstract word
count is an integer in [50, 300]; the loader is a pure function of the
stream, so with the fixed seed repeated calls return the same table. -/
theorem C9_loader_deterministic_shape (g : RNG) :
    (loadSampleDataWith g).length = 5000 ∧
    loadSampleData = loadSampleDataWith seededRNG ∧
    ∀ r ∈ loadSampleDataWith g,
      (1 ≤ r.publish_time.day ∧ r.publish_time.day ≤ 28) ∧
      (1 ≤ r.publish_time.month ∧ r.publish_time.month ≤ 12) ∧
      (2015 ≤ r.publish_year ∧ r.publish_year ≤ 2023) ∧
      (50 ≤ r.abstract_word_count ∧ r.abstract_word_count ≤ 300) := by
  refine ⟨by simp [loadSampleDataWith], rfl, ?_⟩
  intro r hr
  obtain ⟨i, _, rfl⟩ := List.mem_map.mp hr
  have hday : g.dayDraw i % 28 < 28 := Nat.mod_lt _ (by omega)
  have hmonth : g.monthDraw i % 12 < 12 := Nat.mod_lt _ (by omega)
  have hc : g.choiceYear i % 3 < 3 := Nat.mod_lt _ (by omega)
  have ho : g.otherYear i % 9 < 9 := Nat.mod_lt _ (by omega)
  have hwc1 : (50 : Int) ≤ max 50 (min 300 (g.normalDraw i)) := le_max_left _ _
  have hwc2 : max 50 (min 300 (g.normalDraw i)) ≤ (300 : Int) :=
    max_le (by norm_num) (min_le_left _ _)
  unfold sampleRecord
  by_cases hcoin : g.coin i = true <;>
    simp only [hcoin, if_true, if_false, Bool.false_eq_true, ite_true, ite_false] <;>
    refine ⟨⟨?_, ?_⟩, ⟨?_, ?_⟩, ⟨?_, ?_⟩, hwc1, hwc2⟩ <;>
    omega

/-- C9 instantiated at the seeded stream. -/
theorem C9_loader_witness : loadSampleData.length = 5000 :=
  (C9_loader_deterministic_shape seededRNG).1

/-- C8: the loader derives `publish_year` from the parsed `publish_time`
(lines 120-121), so every loaded record satisfies
publish_year = year(publish_date); no downstream operation mutates a
record (each only selects records of its input table), so the invariant
holds after filtering and sorting, in particular along the dashboard's
whole pipeline. -/
theorem C8_publish_year_matches_date (g : RNG) (T : List Paper) (S : Selection)
    (col : SortCol) (asc : Bool) (limit : Nat) :
    (∀ r ∈ loadSampleDataWith g, r.publish_year = r.publish_time.year) ∧
    (∀ r ∈ filteredDf T S, r ∈ T) ∧
    (∀ r ∈ displayDf T S, r ∈ T) ∧
    (∀ r ∈ displayRows T col asc limit, r ∈ T) ∧
    (∀ r ∈ displayRows (displayDf (loadSampleDataWith g) S) col asc limit,
      r.publish_year = r.publish_time.year) := by
  have hload : ∀ r ∈ loadSampleDataWith g, r.publish_year = r.publish_time.year := by
    intro r hr
    obtain ⟨i, _, rfl⟩ := List.mem_map.mp hr
    rfl
  have hfil : ∀ (U : List Paper) (S' : Selection), ∀ r ∈ filteredDf U S', r ∈ U := by
    intro U S' r hr
    exact (List.mem_filter.mp hr).1
  have hdisp : ∀ (U : List Paper) (S' : Selection), ∀ r ∈ displayDf U S', r ∈ U := by
    intro U S' r hr
    rw [displayDf_eq_filter_conj] at hr
    exact (List.mem_filter.mp hr).1
  have hrows : ∀ (U : List Paper) r, r ∈ displayRows U col asc limit → r ∈ U := by
    intro U r hr
    have h1 : r ∈ sortValues U col asc := List.mem_of_mem_take hr
    rw [sortValues, List.mem_mergeSort] at h1
    exact h1
  refine ⟨hload, hfil T S, hdisp T S, fun r hr => hrows T r hr, ?_⟩
  intro r hr
  exact hload r (hdisp _ S r (hrows _ r hr))

/-- C10: the loader's base table always has 5000 rows, hence is
non-empty, so the filter-efficiency percentage of line 525 never hits
its division-by-zero branch when the base table is a loader output. -/
theorem C10_filter_efficiency_defined (g : RNG) (S : Selection) :
    (loadSampleDataWith g).length = 5000 ∧
    loadSampleDataWith g ≠ [] ∧
    (filterEfficiencyPct (loadSampleDataWith g)
      (filteredDf (loadSampleDataWith g) S)).isSome = true := by
  have hlen : (loadSampleDataWith g).length = 5000 := by simp [loadSampleDataWith]
  refine ⟨hlen, ?_, ?_⟩
  · intro h
    rw [h] at hlen
    simp at hlen
  · unfold filterEfficiencyPct
    rw [hlen]
    simp

end Cord19
